import Mathlib

/-!
Verification of the paginated review-retrieval controller in
`ctrip_comment_spider.py`.

The Python program is shallowly embedded:

* `PyVal` models the JSON-like Python values flowing through the program
  (decoded response bodies, raw review items, parsed comment rows).
* Partial Python operations (attribute access on a non-dict, `len` of a
  non-sized value, `",".join` of non-strings, iteration of a non-iterable)
  are modelled in `Except Unit`, an `error` standing for a raised exception.
* `parseFields` / `_parse_comment` embed `CtripCommentSpider._parse_comment`.
* `runLoop` / `fetch_comments` embed the retrieval loop of
  `CtripCommentSpider.fetch_comments`, driven by a finite script of
  `PageOutcome`s: each element is the outcome of one HTTP request, as
  classified by the `except` clauses of the source. The result records the
  page index each issued request targeted, the final mutable state and the
  returned count.
* `save_to_csv_columns` embeds the column selection of `save_to_csv`.
-/

/-- JSON-like Python values. -/
inductive PyVal where
  | none : PyVal
  | bool : Bool → PyVal
  | int : Int → PyVal
  | str : String → PyVal
  | list : List PyVal → PyVal
  | dict : List (String × PyVal) → PyVal
deriving Repr

/-- Python truthiness (`bool(v)`). -/
def truthy : PyVal → Bool
  | .none => false
  | .bool b => b
  | .int n => n != 0
  | .str s => s != ""
  | .list xs => !xs.isEmpty
  | .dict kvs => !kvs.isEmpty

/-- Python `v.get(key, default)`: raises (AttributeError) unless `v` is a
dict; returns `default` when the key is absent. -/
def pyGet : PyVal → String → PyVal → Except Unit PyVal
  | .dict kvs, k, d => .ok ((kvs.lookup k).getD d)
  | _, _, _ => .error ()

/-- Python `len(v)`: length of lists, strings and dicts, raises otherwise. -/
def pyLen : PyVal → Except Unit Int
  | .list xs => .ok xs.length
  | .str s => .ok s.length
  | .dict kvs => .ok kvs.length
  | _ => .error ()

/-- Python iteration `for x in v`: list elements, characters of a string,
keys of a dict; raises on non-iterables. -/
def pyIter : PyVal → Except Unit (List PyVal)
  | .list xs => .ok xs
  | .str s => .ok (s.toList.map (fun c => .str (String.mk [c])))
  | .dict kvs => .ok (kvs.map (fun p => .str p.1))
  | _ => .error ()

/-- Requires every element to be a string (as Python `str.join` does). -/
def allStrings : List PyVal → Except Unit (List String)
  | [] => .ok []
  | .str s :: rest => (allStrings rest).map (fun r => s :: r)
  | _ :: _ => .error ()

/-- Python `",".join(v)`. -/
def pyJoinComma (v : PyVal) : Except Unit String :=
  match pyIter v with
  | .error e => .error e
  | .ok xs =>
    match allStrings xs with
    | .error e => .error e
    | .ok ss => .ok (String.intercalate "," ss)

/-- Python `v == 0` (true for `0` and `False`). -/
def pyEqZero : PyVal → Bool
  | .int n => n == 0
  | .bool b => !b
  | _ => false

/-- Whether an `Except` computation succeeded. -/
def exOk : Except Unit PyVal → Bool
  | .ok _ => true
  | .error _ => false

/-- Guarded author extraction (lines 117-121): on any exception the
anonymous sentinel is used. -/
def parseAuthor (item : PyVal) : PyVal :=
  match pyGet item "userInfo" (.dict []) with
  | .error _ => .str "匿名"
  | .ok userInfo =>
    if truthy userInfo then
      match pyGet userInfo "userNick" (.str "匿名") with
      | .error _ => .str "匿名"
      | .ok v => v
    else .str "匿名"

/-- Guarded date extraction (lines 123-127): first space-delimited token of
`publishTypeTag`, empty string on any exception or falsy tag. -/
def parseDate (item : PyVal) : PyVal :=
  match pyGet item "publishTypeTag" (.str "") with
  | .error _ => .str ""
  | .ok pt =>
    if truthy pt then
      match pt with
      | .str s => .str ((s.splitOn " ").headD "")
      | _ => .str ""
    else .str ""

/-- Guarded identity-badge extraction (lines 146-150). -/
def parseIdentity (item : PyVal) : PyVal :=
  match pyGet item "userInfo" (.dict []) with
  | .error _ => .str ""
  | .ok userInfo =>
    if truthy userInfo then
      match pyGet userInfo "identitiesName" (.str "") with
      | .error _ => .str ""
      | .ok v => v
    else .str ""

/-- Key list of every successfully parsed comment, in the dict insertion
order of `_parse_comment`. -/
def commentKeys : List String :=
  ["用户名", "评论时间", "评论内容", "IP属地", "评分", "推荐标签",
   "点赞数", "评论ID", "图片数量", "回复数", "用户身份"]

/-- Body of `_parse_comment` (lines 114-152): the three guarded fields never
raise; every other extraction propagates its exception to the outer handler. -/
def parseFields (item : PyVal) : Except Unit (List (String × PyVal)) :=
  match pyGet item "content" (.str "") with
  | .error e => .error e
  | .ok content =>
  match pyGet item "ipLocatedName" (.str "") with
  | .error e => .error e
  | .ok loc =>
  match pyGet item "score" (.str "") with
  | .error e => .error e
  | .ok score =>
  match pyGet item "recommendItems" (.list []) with
  | .error e => .error e
  | .ok ritems =>
  match (if truthy ritems then (pyJoinComma ritems).map PyVal.str
         else .ok (.str "")) with
  | .error e => .error e
  | .ok tags =>
  match pyGet item "usefulCount" (.int 0) with
  | .error e => .error e
  | .ok useful =>
  match pyGet item "commentId" (.str "") with
  | .error e => .error e
  | .ok cid =>
  match pyGet item "images" PyVal.none with
  | .error e => .error e
  | .ok imgCond =>
  match (if truthy imgCond then
           (match pyGet item "images" (.list []) with
            | .error e => .error e
            | .ok v => (pyLen v).map PyVal.int : Except Unit PyVal)
         else .ok (.int 0)) with
  | .error e => .error e
  | .ok imgCount =>
  match pyGet item "replyCount" (.int 0) with
  | .error e => .error e
  | .ok reply =>
  .ok [("用户名", parseAuthor item), ("评论时间", parseDate item),
       ("评论内容", content), ("IP属地", loc), ("评分", score),
       ("推荐标签", tags), ("点赞数", useful), ("评论ID", cid),
       ("图片数量", imgCount), ("回复数", reply),
       ("用户身份", parseIdentity item)]

/-- `_parse_comment` (lines 104-156): the outer `try` turns any raised
exception into `None` (record dropped). -/
def _parse_comment (item : PyVal) : Option (List (String × PyVal)) :=
  (parseFields item).toOption

/-- Python `"result" in v` (line 205): key membership for dicts, element
membership for lists, substring for strings; raises (TypeError) otherwise. -/
def pyContainsResult : PyVal → Except Unit Bool
  | .dict kvs => .ok (kvs.any (fun p => p.1 == "result"))
  | .list xs => .ok (xs.any (fun v => match v with
      | .str s => s == "result"
      | _ => false))
  | .str s => .ok (decide ((s.splitOn "result").length > 1))
  | _ => .error ()

/-- Outcome of one HTTP request of the loop body, as classified by the
source's `except` clauses: a non-200 status (line 193), a decoded JSON body
(line 203), or one of the exception handlers of lines 241-268. -/
inductive PageOutcome where
  | httpError (status : Nat)
  | success (body : PyVal)
  | timeout
  | connError
  | reqError
  | decodeError
  | otherError
deriving Repr

/-- Mutable state of one run of `fetch_comments`: the local variables
`page`, `total_count`, `consecutive_empty` and the instance fields
`comments_data`, `total_count_from_api`. -/
structure SpiderState where
  page : Nat
  total_count : Nat
  consecutive_empty : Nat
  comments_data : List (List (String × PyVal))
  total_count_from_api : PyVal
deriving Repr

/-- `max_consecutive_empty = 3` (line 174). -/
def max_consecutive_empty : Nat := 3

/-- The loop guard `if max_pages and page > max_pages` (line 177):
`None` and `0` are falsy, so the page ceiling is checked only for a
non-zero `max_pages`. -/
def maxPagesBreak (max_pages : Option Int) (page : Nat) : Bool :=
  match max_pages with
  | Option.none => false
  | some m => if m == 0 then false else decide ((page : Int) > m)

/-- Result of a run: `done` is a `return` of the source (carrying the
returned count), `starved` means the outcome script was exhausted while the
loop would have kept requesting. Both carry the final state and the page
index targeted by each issued request, in order. -/
inductive RunResult where
  | done (retval : Nat) (st : SpiderState) (pages : List Nat)
  | starved (st : SpiderState) (pages : List Nat)
deriving Repr

/-- Page indices of the requests a run issued. -/
def RunResult.pages : RunResult → List Nat
  | .done _ _ p => p
  | .starved _ p => p

/-- Final spider state of a run. -/
def RunResult.finalState : RunResult → SpiderState
  | .done _ st _ => st
  | .starved st _ => st

/-- The `while True` loop of `fetch_comments` (lines 176-268), one script
element consumed per issued request.

Branches, in source order: the `max_pages` guard (177-179); non-200 status
(193-201: count the failure, stop at the ceiling, else advance the page and
retry); envelope check `'result' not in result` (205-208, a raised `in` or
`.get` lands in the catch-all `except Exception: break` of 266-268);
extraction of `items` and `totalCount` (210-212); the page-1 zero-total
`return 0` (214-218); empty-`items` stop (220-222); per-item parsing and
state update (224-239); and the exception handlers (241-268). -/
def runLoop (max_pages : Option Int) :
    SpiderState → List Nat → List PageOutcome → RunResult
  | st, reqs, [] =>
    if maxPagesBreak max_pages st.page then .done st.total_count st reqs
    else .starved st reqs
  | st, reqs, o :: rest =>
    if maxPagesBreak max_pages st.page then .done st.total_count st reqs
    else
      let reqs := reqs ++ [st.page]
      match o with
      | .httpError _ =>
        let st := { st with consecutive_empty := st.consecutive_empty + 1 }
        if max_consecutive_empty ≤ st.consecutive_empty then
          .done st.total_count st reqs
        else runLoop max_pages { st with page := st.page + 1 } reqs rest
      | .timeout => runLoop max_pages st reqs rest
      | .connError => runLoop max_pages st reqs rest
      | .reqError =>
        let st := { st with consecutive_empty := st.consecutive_empty + 1 }
        if max_consecutive_empty ≤ st.consecutive_empty then
          .done st.total_count st reqs
        else runLoop max_pages st reqs rest
      | .decodeError => .done st.total_count st reqs
      | .otherError => .done st.total_count st reqs
      | .success body =>
        match pyContainsResult body with
        | .error _ => .done st.total_count st reqs
        | .ok false => .done st.total_count st reqs
        | .ok true =>
          match pyGet body "result" (.dict []) with
          | .error _ => .done st.total_count st reqs
          | .ok result_data =>
            match pyGet result_data "items" (.list []) with
            | .error _ => .done st.total_count st reqs
            | .ok items =>
              match pyGet result_data "totalCount" (.int 0) with
              | .error _ => .done st.total_count st reqs
              | .ok tc =>
                let st := { st with total_count_from_api := tc }
                if st.page = 1 ∧ pyEqZero tc then .done 0 st reqs
                else if truthy items = false then .done st.total_count st reqs
                else
                  match pyIter items with
                  | .error _ => .done st.total_count st reqs
                  | .ok xs =>
                    let parsed := xs.filterMap _parse_comment
                    runLoop max_pages
                      { st with
                        comments_data := st.comments_data ++ parsed,
                        total_count := st.total_count + parsed.length,
                        consecutive_empty := 0,
                        page := st.page + 1 } reqs rest

/-- Initial run state (lines 50-51, 171-173). -/
def initState : SpiderState :=
  { page := 1, total_count := 0, consecutive_empty := 0,
    comments_data := [], total_count_from_api := .int 0 }

/-- `fetch_comments(max_pages)` run against a script of request outcomes. -/
def fetch_comments (max_pages : Option Int) (outcomes : List PageOutcome) :
    RunResult :=
  runLoop max_pages initState [] outcomes

/-- A well-formed success body: HTTP 200, valid JSON with a `result`
envelope carrying `items` and `totalCount`. -/
def mkSuccessBody (items : List PyVal) (tc : PyVal) : PyVal :=
  .dict [("result", .dict [("items", .list items), ("totalCount", tc)])]

/-- `columns_order` of `save_to_csv` (lines 287-291). -/
def columns_order : List String :=
  ["用户名", "评论时间", "评分", "评论内容", "IP属地", "推荐标签",
   "点赞数", "回复数", "图片数量", "用户身份", "评论ID"]

/-- Fold one record's keys into the accumulated column list, keeping first
appearances only (pandas column construction from a list of dicts). -/
def addCols : List String → List String → List String
  | acc, [] => acc
  | acc, k :: ks =>
    if acc.contains k then addCols acc ks else addCols (acc ++ [k]) ks

/-- Columns of `pd.DataFrame(records)`: union of the records' keys in order
of first appearance. -/
def dfColumns (records : List (List (String × PyVal))) : List String :=
  records.foldl (fun acc r => addCols acc (r.map Prod.fst)) []

/-- Column selection of `save_to_csv` (lines 280-294): `None` when there is
no data, otherwise `columns_order` filtered to the columns the DataFrame
actually has. -/
def save_to_csv_columns (records : List (List (String × PyVal))) :
    Option (List String) :=
  if records.isEmpty then Option.none
  else some (columns_order.filter (fun c => (dfColumns records).contains c))


/-- Countable failures: the outcomes that increment `consecutive_empty`
(non-200 status and generic request exception). -/
def countable : PageOutcome → Bool
  | .httpError _ => true
  | .reqError => true
  | _ => false

/-- The fully defaulted record `_parse_comment` emits for an empty item. -/
def defaultRecord : List (String × PyVal) :=
  [("用户名", .str "匿名"), ("评论时间", .str ""), ("评论内容", .str ""),
   ("IP属地", .str ""), ("评分", .str ""), ("推荐标签", .str ""),
   ("点赞数", .int 0), ("评论ID", .str ""), ("图片数量", .int 0),
   ("回复数", .int 0), ("用户身份", .str "")]

/-- The eight unguarded field extractions of `_parse_comment` — everything
outside the three inner `try` blocks (body, location, score, tags join,
helpful count, record id, image count, reply count): true when every one of
them succeeds without raising. -/
def unguardedOk (item : PyVal) : Bool :=
  exOk (pyGet item "content" (.str "")) &&
  exOk (pyGet item "ipLocatedName" (.str "")) &&
  exOk (pyGet item "score" (.str "")) &&
  (match pyGet item "recommendItems" (.list []) with
   | .error _ => false
   | .ok r => !truthy r ||
      (match pyJoinComma r with
       | .error _ => false
       | .ok _ => true)) &&
  exOk (pyGet item "usefulCount" (.int 0)) &&
  exOk (pyGet item "commentId" (.str "")) &&
  (match pyGet item "images" PyVal.none with
   | .error _ => false
   | .ok c => !truthy c ||
      (match pyGet item "images" (.list []) with
       | .error _ => false
       | .ok v => (match pyLen v with | .error _ => false | .ok _ => true))) &&
  exOk (pyGet item "replyCount" (.int 0))

theorem maxPagesBreak_none (p : Nat) : maxPagesBreak Option.none p = false := rfl

theorem maxPagesBreak_some_zero (p : Nat) : maxPagesBreak (some 0) p = false := rfl

theorem runLoop_timeout_step (mp : Option Int) (st : SpiderState) (reqs : List Nat)
    (rest : List PageOutcome) (hg : maxPagesBreak mp st.page = false) :
    runLoop mp st reqs (.timeout :: rest) = runLoop mp st (reqs ++ [st.page]) rest := by
  simp only [runLoop, hg]
  rfl

theorem runLoop_connError_step (mp : Option Int) (st : SpiderState) (reqs : List Nat)
    (rest : List PageOutcome) (hg : maxPagesBreak mp st.page = false) :
    runLoop mp st reqs (.connError :: rest) = runLoop mp st (reqs ++ [st.page]) rest := by
  simp only [runLoop, hg]
  rfl

theorem runLoop_decodeError_step (mp : Option Int) (st : SpiderState) (reqs : List Nat)
    (rest : List PageOutcome) (hg : maxPagesBreak mp st.page = false) :
    runLoop mp st reqs (.decodeError :: rest) =
      .done st.total_count st (reqs ++ [st.page]) := by
  simp only [runLoop, hg]
  rfl

theorem runLoop_httpError_step (mp : Option Int) (st : SpiderState) (reqs : List Nat)
    (rest : List PageOutcome) (status : Nat) (hg : maxPagesBreak mp st.page = false)
    (hc : st.consecutive_empty + 1 < max_consecutive_empty) :
    runLoop mp st reqs (.httpError status :: rest) =
      runLoop mp
        { st with
          page := st.page + 1,
          consecutive_empty := st.consecutive_empty + 1 }
        (reqs ++ [st.page]) rest := by
  simp only [runLoop, hg]
  rw [if_neg (Nat.not_le.mpr hc)]
  rfl

theorem runLoop_reqError_step (mp : Option Int) (st : SpiderState) (reqs : List Nat)
    (rest : List PageOutcome) (hg : maxPagesBreak mp st.page = false)
    (hc : st.consecutive_empty + 1 < max_consecutive_empty) :
    runLoop mp st reqs (.reqError :: rest) =
      runLoop mp { st with consecutive_empty := st.consecutive_empty + 1 }
        (reqs ++ [st.page]) rest := by
  simp only [runLoop, hg]
  rw [if_neg (Nat.not_le.mpr hc)]
  rfl

theorem runLoop_countable_stop (mp : Option Int) (st : SpiderState) (reqs : List Nat)
    (rest : List PageOutcome) (f : PageOutcome) (hf : countable f = true)
    (hg : maxPagesBreak mp st.page = false)
    (hc : max_consecutive_empty ≤ st.consecutive_empty + 1) :
    runLoop mp st reqs (f :: rest) =
      .done st.total_count { st with consecutive_empty := st.consecutive_empty + 1 }
        (reqs ++ [st.page]) := by
  cases f
  case httpError status => simp only [runLoop, hg]; rw [if_pos hc]; rfl
  case reqError => simp only [runLoop, hg]; rw [if_pos hc]; rfl
  all_goals simp [countable] at hf

theorem runLoop_countable_step (mp : Option Int) (st : SpiderState) (reqs : List Nat)
    (rest : List PageOutcome) (f : PageOutcome) (hf : countable f = true)
    (hg : maxPagesBreak mp st.page = false)
    (hc : st.consecutive_empty + 1 < max_consecutive_empty) :
    ∃ st', runLoop mp st reqs (f :: rest) = runLoop mp st' (reqs ++ [st.page]) rest ∧
      st'.comments_data = st.comments_data ∧
      st'.consecutive_empty = st.consecutive_empty + 1 ∧
      st'.total_count = st.total_count := by
  cases f
  case httpError status =>
    exact ⟨_, runLoop_httpError_step mp st reqs rest status hg hc, rfl, rfl, rfl⟩
  case reqError =>
    exact ⟨_, runLoop_reqError_step mp st reqs rest hg hc, rfl, rfl, rfl⟩
  all_goals simp [countable] at hf

theorem runLoop_success_step (mp : Option Int) (st : SpiderState) (reqs : List Nat)
    (rest : List PageOutcome) (items : List PyVal) (tc : PyVal)
    (hg : maxPagesBreak mp st.page = false) :
    runLoop mp st reqs (.success (mkSuccessBody items tc) :: rest) =
      (if st.page = 1 ∧ pyEqZero tc then
        .done 0 { st with total_count_from_api := tc } (reqs ++ [st.page])
      else if truthy (.list items) = false then
        .done st.total_count { st with total_count_from_api := tc } (reqs ++ [st.page])
      else
        runLoop mp
          { st with
            page := st.page + 1,
            total_count := st.total_count + (items.filterMap _parse_comment).length,
            consecutive_empty := 0,
            comments_data := st.comments_data ++ items.filterMap _parse_comment,
            total_count_from_api := tc }
          (reqs ++ [st.page]) rest) := by
  simp only [runLoop, hg]
  rfl

theorem runLoop_otherError_step (mp : Option Int) (st : SpiderState) (reqs : List Nat)
    (rest : List PageOutcome) (hg : maxPagesBreak mp st.page = false) :
    runLoop mp st reqs (.otherError :: rest) =
      .done st.total_count st (reqs ++ [st.page]) := by
  simp only [runLoop, hg]
  rfl

theorem runLoop_pages_extend (mp : Option Int) :
    ∀ (outs : List PageOutcome) (st : SpiderState) (reqs : List Nat),
      ∃ tail, (runLoop mp st reqs outs).pages = reqs ++ tail := by
  intro outs
  induction outs with
  | nil =>
    intro st reqs
    by_cases hg : maxPagesBreak mp st.page
    · exact ⟨[], by simp [runLoop, hg, RunResult.pages]⟩
    · exact ⟨[], by simp [runLoop, hg, RunResult.pages]⟩
  | cons o rest ih =>
    intro st reqs
    by_cases hg : maxPagesBreak mp st.page
    · exact ⟨[], by simp [runLoop, hg, RunResult.pages]⟩
    · simp only [Bool.not_eq_true] at hg
      cases o with
      | timeout =>
        rw [runLoop_timeout_step mp st reqs rest hg]
        obtain ⟨t, ht⟩ := ih st (reqs ++ [st.page])
        exact ⟨st.page :: t, by simpa using ht⟩
      | connError =>
        rw [runLoop_connError_step mp st reqs rest hg]
        obtain ⟨t, ht⟩ := ih st (reqs ++ [st.page])
        exact ⟨st.page :: t, by simpa using ht⟩
      | decodeError =>
        rw [runLoop_decodeError_step mp st reqs rest hg]
        exact ⟨[st.page], by simp [RunResult.pages]⟩
      | otherError =>
        rw [runLoop_otherError_step mp st reqs rest hg]
        exact ⟨[st.page], by simp [RunResult.pages]⟩
      | httpError status =>
        by_cases hc : max_consecutive_empty ≤ st.consecutive_empty + 1
        · rw [runLoop_countable_stop mp st reqs rest (.httpError status) rfl hg hc]
          exact ⟨[st.page], by simp [RunResult.pages]⟩
        · rw [runLoop_httpError_step mp st reqs rest status hg (Nat.not_le.mp hc)]
          obtain ⟨t, ht⟩ := ih _ (reqs ++ [st.page])
          exact ⟨st.page :: t, by simpa using ht⟩
      | reqError =>
        by_cases hc : max_consecutive_empty ≤ st.consecutive_empty + 1
        · rw [runLoop_countable_stop mp st reqs rest .reqError rfl hg hc]
          exact ⟨[st.page], by simp [RunResult.pages]⟩
        · rw [runLoop_reqError_step mp st reqs rest hg (Nat.not_le.mp hc)]
          obtain ⟨t, ht⟩ := ih _ (reqs ++ [st.page])
          exact ⟨st.page :: t, by simpa using ht⟩
      | success body =>
        simp only [runLoop, hg, Bool.false_eq_true, if_false]
        repeat' split
        all_goals
          first
          | (refine ⟨[st.page], ?_⟩; simp [RunResult.pages]; done)
          | (obtain ⟨t, ht⟩ := ih _ (reqs ++ [st.page])
             refine ⟨st.page :: t, ?_⟩
             simpa using ht)

theorem runLoop_cons_pages (mp : Option Int) (st : SpiderState) (reqs : List Nat)
    (o : PageOutcome) (rest : List PageOutcome)
    (hg : maxPagesBreak mp st.page = false) :
    ∃ tail, (runLoop mp st reqs (o :: rest)).pages = reqs ++ st.page :: tail := by
  cases o with
  | timeout =>
    rw [runLoop_timeout_step mp st reqs rest hg]
    obtain ⟨t, ht⟩ := runLoop_pages_extend mp rest st (reqs ++ [st.page])
    exact ⟨t, by simpa using ht⟩
  | connError =>
    rw [runLoop_connError_step mp st reqs rest hg]
    obtain ⟨t, ht⟩ := runLoop_pages_extend mp rest st (reqs ++ [st.page])
    exact ⟨t, by simpa using ht⟩
  | decodeError =>
    rw [runLoop_decodeError_step mp st reqs rest hg]
    exact ⟨[], by simp [RunResult.pages]⟩
  | otherError =>
    rw [runLoop_otherError_step mp st reqs rest hg]
    exact ⟨[], by simp [RunResult.pages]⟩
  | httpError status =>
    by_cases hc : max_consecutive_empty ≤ st.consecutive_empty + 1
    · rw [runLoop_countable_stop mp st reqs rest (.httpError status) rfl hg hc]
      exact ⟨[], by simp [RunResult.pages]⟩
    · rw [runLoop_httpError_step mp st reqs rest status hg (Nat.not_le.mp hc)]
      obtain ⟨t, ht⟩ := runLoop_pages_extend mp rest _ (reqs ++ [st.page])
      exact ⟨t, by simpa using ht⟩
  | reqError =>
    by_cases hc : max_consecutive_empty ≤ st.consecutive_empty + 1
    · rw [runLoop_countable_stop mp st reqs rest .reqError rfl hg hc]
      exact ⟨[], by simp [RunResult.pages]⟩
    · rw [runLoop_reqError_step mp st reqs rest hg (Nat.not_le.mp hc)]
      obtain ⟨t, ht⟩ := runLoop_pages_extend mp rest _ (reqs ++ [st.page])
      exact ⟨t, by simpa using ht⟩
  | success body =>
    simp only [runLoop, hg, Bool.false_eq_true, if_false]
    repeat' split
    all_goals
      first
      | (refine ⟨[], ?_⟩; simp [RunResult.pages]; done)
      | (obtain ⟨t, ht⟩ := runLoop_pages_extend mp rest _ (reqs ++ [st.page])
         refine ⟨t, ?_⟩
         simpa using ht)

theorem runLoop_some_zero (outs : List PageOutcome) :
    ∀ st reqs, runLoop (some 0) st reqs outs = runLoop Option.none st reqs outs := by
  induction outs with
  | nil => intro st reqs; rfl
  | cons o rest ih =>
    intro st reqs
    cases o with
    | timeout =>
      rw [runLoop_timeout_step (some 0) st reqs rest (maxPagesBreak_some_zero _),
        runLoop_timeout_step Option.none st reqs rest (maxPagesBreak_none _)]
      exact ih _ _
    | connError =>
      rw [runLoop_connError_step (some 0) st reqs rest (maxPagesBreak_some_zero _),
        runLoop_connError_step Option.none st reqs rest (maxPagesBreak_none _)]
      exact ih _ _
    | decodeError =>
      rw [runLoop_decodeError_step (some 0) st reqs rest (maxPagesBreak_some_zero _),
        runLoop_decodeError_step Option.none st reqs rest (maxPagesBreak_none _)]
    | otherError =>
      rw [runLoop_otherError_step (some 0) st reqs rest (maxPagesBreak_some_zero _),
        runLoop_otherError_step Option.none st reqs rest (maxPagesBreak_none _)]
    | httpError status =>
      by_cases hc : max_consecutive_empty ≤ st.consecutive_empty + 1
      · rw [runLoop_countable_stop (some 0) st reqs rest (.httpError status) rfl
            (maxPagesBreak_some_zero _) hc,
          runLoop_countable_stop Option.none st reqs rest (.httpError status) rfl
            (maxPagesBreak_none _) hc]
      · rw [runLoop_httpError_step (some 0) st reqs rest status (maxPagesBreak_some_zero _)
            (Nat.not_le.mp hc),
          runLoop_httpError_step Option.none st reqs rest status (maxPagesBreak_none _)
            (Nat.not_le.mp hc)]
        exact ih _ _
    | reqError =>
      by_cases hc : max_consecutive_empty ≤ st.consecutive_empty + 1
      · rw [runLoop_countable_stop (some 0) st reqs rest .reqError rfl
            (maxPagesBreak_some_zero _) hc,
          runLoop_countable_stop Option.none st reqs rest .reqError rfl
            (maxPagesBreak_none _) hc]
      · rw [runLoop_reqError_step (some 0) st reqs rest (maxPagesBreak_some_zero _)
            (Nat.not_le.mp hc),
          runLoop_reqError_step Option.none st reqs rest (maxPagesBreak_none _)
            (Nat.not_le.mp hc)]
        exact ih _ _
    | success body =>
      simp only [runLoop, maxPagesBreak_some_zero, maxPagesBreak_none,
        Bool.false_eq_true, if_false]
      repeat' split
      all_goals first | rfl | exact ih _ _

theorem parseFields_keys (item : PyVal) (c : List (String × PyVal))
    (h : parseFields item = .ok c) : c.map Prod.fst = commentKeys := by
  simp only [parseFields] at h
  repeat' split at h
  all_goals try exact Except.noConfusion h
  all_goals injection h with h
  all_goals subst h
  all_goals simp [commentKeys]

theorem parse_comment_keys (item : PyVal) (c : List (String × PyVal))
    (h : _parse_comment item = some c) : c.map Prod.fst = commentKeys := by
  cases hp : parseFields item with
  | ok a =>
    simp only [_parse_comment, hp, Except.toOption] at h
    cases h
    exact parseFields_keys item _ hp
  | error e =>
    simp [_parse_comment, hp, Except.toOption] at h

theorem addCols_nil_commentKeys : addCols [] commentKeys = commentKeys := rfl

theorem addCols_commentKeys_self : addCols commentKeys commentKeys = commentKeys := rfl

theorem foldl_addCols_const : ∀ rs : List (List (String × PyVal)),
    (∀ r ∈ rs, r.map Prod.fst = commentKeys) →
    List.foldl (fun acc r => addCols acc (r.map Prod.fst)) commentKeys rs = commentKeys := by
  intro rs
  induction rs with
  | nil => intro _; rfl
  | cons r rs ih =>
    intro h
    have hr : r.map Prod.fst = commentKeys := h r (by simp)
    simp only [List.foldl_cons, hr, addCols_commentKeys_self]
    exact ih (fun x hx => h x (by simp [hx]))

theorem dfColumns_of_records (rs : List (List (String × PyVal))) (hne : rs ≠ [])
    (h : ∀ r ∈ rs, r.map Prod.fst = commentKeys) : dfColumns rs = commentKeys := by
  cases rs with
  | nil => cases hne rfl
  | cons r rs =>
    have hr : r.map Prod.fst = commentKeys := h r (by simp)
    simp only [dfColumns, List.foldl_cons, hr, addCols_nil_commentKeys]
    exact foldl_addCols_const rs (fun x hx => h x (by simp [hx]))

theorem filter_commentKeys_columns :
    columns_order.filter (fun c => commentKeys.contains c) = columns_order := rfl

/-- C2 (amended): only the author, date and identity-badge extractions of
`_parse_comment` are individually guarded and degrade to their defaults; a
record is emitted if and only if all eight unguarded field extractions (body,
location, score, tags join, helpful count, record id, image count, reply
count) succeed, and a failure in any one of those eight drops the whole
record. -/
theorem c2_amended_drop_iff_unguarded_failure (item : PyVal) :
    (_parse_comment item).isSome = unguardedOk item := by
  simp only [_parse_comment, parseFields, unguardedOk]
  repeat' split
  all_goals simp_all [exOk, Except.toOption, Except.map]
  all_goals split_ifs at * <;> simp_all

/-- C1 counterexample: the claim that an HTTP non-2xx outcome under the
ceiling retries the same page index is false on the code: the handler
advances the page index before continuing, so after a 500 on the first
request the second request targets page 2, not page 1, and the page index
has incremented after a failed (not successfully-processed) attempt. -/
theorem c1_counterexample :
    fetch_comments Option.none [.httpError 500, .timeout] =
      .starved { page := 2, total_count := 0, consecutive_empty := 1,
                 comments_data := [], total_count_from_api := .int 0 }
        [1, 2] := rfl

/-- C1 (amended): when a page fetch returns an HTTP non-2xx status and the
consecutive-failure counter is still under the ceiling, the controller
increments the counter, advances the page index by 1 — skipping the failed
page rather than retrying it — sleeps, and issues the next request for the
following page index. -/
theorem c1_amended_http_advances_page (mp : Option Int) (st : SpiderState)
    (reqs : List Nat) (rest : List PageOutcome) (status : Nat)
    (hg : maxPagesBreak mp st.page = false)
    (hc : st.consecutive_empty + 1 < max_consecutive_empty) :
    runLoop mp st reqs (.httpError status :: rest) =
      runLoop mp
        { st with
          page := st.page + 1,
          consecutive_empty := st.consecutive_empty + 1 }
        (reqs ++ [st.page]) rest :=
  runLoop_httpError_step mp st reqs rest status hg hc

/-- Witness for C1 (amended) at the initial state and a 500 status. -/
theorem c1_amended_http_advances_page_witness :
    maxPagesBreak Option.none 1 = false ∧ 0 + 1 < max_consecutive_empty ∧
    runLoop Option.none initState [] [.httpError 500] =
      runLoop Option.none
        { page := 2, total_count := 0, consecutive_empty := 1,
          comments_data := [], total_count_from_api := .int 0 } [1] [] :=
  ⟨rfl, by decide,
    c1_amended_http_advances_page Option.none initState [] [] 500 rfl (by decide)⟩

/-- C2 counterexample: a failure in a single unguarded field extraction — here
the tags join over a list containing a non-string — drops the whole record,
even though the top-level item is a perfectly well-formed mapping, as shown by
the same mapping parsing fine once that one field is removed. -/
theorem c2_counterexample :
    _parse_comment (.dict [("recommendItems", .list [.int 1])]) = none ∧
    _parse_comment (.dict []) = some defaultRecord := ⟨rfl, rfl⟩

/-- C3 counterexample: the server-reported total is re-captured from every
structurally successful page, not only the first (a run seeing totals 5 then
7 ends holding 7), and it is consulted in a termination decision: a page-1
total of 0 ends the run immediately even though the page carried a nonempty
items list. -/
theorem c3_counterexample :
    (fetch_comments Option.none
        [.success (mkSuccessBody [.dict []] (.int 5)),
         .success (mkSuccessBody [] (.int 7))]).finalState.total_count_from_api =
      .int 7 ∧
    fetch_comments Option.none [.success (mkSuccessBody [.dict []] (.int 0))] =
      .done 0 { initState with total_count_from_api := .int 0 } [1] := ⟨rfl, rfl⟩

/-- C3 (amended): the server-reported total is overwritten on every
structurally successful page, so the retained value is the one from the last
such page; and it does feed one termination decision — on page index 1 a
reported total equal to 0 ends the run immediately (regardless of the items
list), while on any other exit the total is still re-captured. -/
theorem c3_amended_total_capture (mp : Option Int) (st : SpiderState)
    (reqs : List Nat) (rest : List PageOutcome) (items : List PyVal) (tc : PyVal)
    (hg : maxPagesBreak mp st.page = false) :
    (st.page = 1 → pyEqZero tc = true →
      runLoop mp st reqs (.success (mkSuccessBody items tc) :: rest) =
        .done 0 { st with total_count_from_api := tc } (reqs ++ [st.page])) ∧
    (¬(st.page = 1 ∧ pyEqZero tc = true) → items = [] →
      runLoop mp st reqs (.success (mkSuccessBody items tc) :: rest) =
        .done st.total_count { st with total_count_from_api := tc }
          (reqs ++ [st.page])) ∧
    (¬(st.page = 1 ∧ pyEqZero tc = true) → items ≠ [] →
      runLoop mp st reqs (.success (mkSuccessBody items tc) :: rest) =
        runLoop mp
          { st with
            page := st.page + 1,
            total_count := st.total_count + (items.filterMap _parse_comment).length,
            consecutive_empty := 0,
            comments_data := st.comments_data ++ items.filterMap _parse_comment,
            total_count_from_api := tc }
          (reqs ++ [st.page]) rest) := by
  refine ⟨fun h1 h2 => ?_, fun h1 h2 => ?_, fun h1 h2 => ?_⟩
  · rw [runLoop_success_step mp st reqs rest items tc hg, if_pos ⟨h1, h2⟩]
  · subst h2
    rw [runLoop_success_step mp st reqs rest [] tc hg, if_neg h1,
      if_pos (show truthy (PyVal.list []) = false from rfl)]
  · rw [runLoop_success_step mp st reqs rest items tc hg, if_neg h1,
      if_neg (by simp [truthy, h2])]

/-- Witness for C3 (amended): a page-2 success with total 7 re-captures the
total over the previously held 5 while terminating on the empty items list. -/
theorem c3_amended_total_capture_witness :
    maxPagesBreak Option.none 2 = false ∧
    runLoop Option.none
        { page := 2, total_count := 1, consecutive_empty := 0,
          comments_data := [defaultRecord], total_count_from_api := .int 5 }
        [1] [.success (mkSuccessBody [] (.int 7))] =
      .done 1
        { page := 2, total_count := 1, consecutive_empty := 0,
          comments_data := [defaultRecord], total_count_from_api := .int 7 }
        [1, 2] := by
  refine ⟨rfl, ?_⟩
  have h := (c3_amended_total_capture Option.none
    { page := 2, total_count := 1, consecutive_empty := 0,
      comments_data := [defaultRecord], total_count_from_api := .int 5 }
    [1] [] [] (.int 7) rfl).2.1 (by simp) rfl
  simpa using h

/-- C4: when three consecutive countable failures (HTTP non-2xx or generic
request exception) hit a run whose consecutive-failure counter is 0, the loop
returns after exactly those three failed requests — the remaining script is
never consumed — and the records accumulated before the failure streak are
returned unchanged. -/
theorem c4_failure_ceiling (st : SpiderState) (reqs : List Nat)
    (rest : List PageOutcome) (f1 f2 f3 : PageOutcome)
    (h1 : countable f1 = true) (h2 : countable f2 = true) (h3 : countable f3 = true)
    (h0 : st.consecutive_empty = 0) :
    ∃ stF tail, runLoop Option.none st reqs (f1 :: f2 :: f3 :: rest) =
        .done st.total_count stF (reqs ++ tail) ∧
      stF.comments_data = st.comments_data ∧ tail.length = 3 := by
  obtain ⟨st1, e1, hc1, hn1, ht1⟩ :=
    runLoop_countable_step Option.none st reqs (f2 :: f3 :: rest) f1 h1
      (maxPagesBreak_none _) (by rw [h0]; decide)
  obtain ⟨st2, e2, hc2, hn2, ht2⟩ :=
    runLoop_countable_step Option.none st1 (reqs ++ [st.page]) (f3 :: rest) f2 h2
      (maxPagesBreak_none _) (by rw [hn1, h0]; decide)
  have e3 := runLoop_countable_stop Option.none st2 ((reqs ++ [st.page]) ++ [st1.page])
    rest f3 h3 (maxPagesBreak_none _) (by rw [hn2, hn1, h0]; decide)
  refine ⟨{ st2 with consecutive_empty := st2.consecutive_empty + 1 },
    [st.page, st1.page, st2.page], ?_, ?_, rfl⟩
  · rw [e1, e2, e3, ht2, ht1]
    congr 1
    simp
  · simp [hc2, hc1]

/-- Witness for C4: a 500, a generic request exception and a 404 from the
initial state stop the run at three requests, leaving a fourth outcome
unconsumed. -/
theorem c4_failure_ceiling_witness :
    countable (.httpError 500) = true ∧ countable .reqError = true ∧
    countable (.httpError 404) = true ∧ initState.consecutive_empty = 0 ∧
    ∃ stF tail,
      runLoop Option.none initState []
          [.httpError 500, .reqError, .httpError 404, .timeout] =
        .done initState.total_count stF ([] ++ tail) ∧
      stF.comments_data = initState.comments_data ∧ tail.length = 3 :=
  ⟨rfl, rfl, rfl, rfl,
    c4_failure_ceiling initState [] [.timeout] (.httpError 500) .reqError
      (.httpError 404) rfl rfl rfl rfl⟩

/-- C5: a timeout or connection-error outcome never touches the
consecutive-failure counter or any other loop state and unconditionally
retries the same page; in particular a block of ceiling-times-two timeouts
is transparent — the run continues exactly as if they had not happened, so a
following structural success is processed normally. -/
theorem c5_timeouts_never_count (mp : Option Int) (st : SpiderState)
    (reqs : List Nat) (rest : List PageOutcome)
    (hg : maxPagesBreak mp st.page = false) :
    (runLoop mp st reqs (.timeout :: rest) =
      runLoop mp st (reqs ++ [st.page]) rest) ∧
    (runLoop mp st reqs (.connError :: rest) =
      runLoop mp st (reqs ++ [st.page]) rest) ∧
    (runLoop mp st reqs (List.replicate (max_consecutive_empty * 2) .timeout ++ rest) =
      runLoop mp st (reqs ++ List.replicate (max_consecutive_empty * 2) st.page) rest) := by
  refine ⟨runLoop_timeout_step mp st reqs rest hg,
    runLoop_connError_step mp st reqs rest hg, ?_⟩
  have key : ∀ n (reqs' : List Nat),
      runLoop mp st reqs' (List.replicate n .timeout ++ rest) =
        runLoop mp st (reqs' ++ List.replicate n st.page) rest := by
    intro n
    induction n with
    | zero => intro reqs'; simp
    | succ n ih =>
      intro reqs'
      rw [List.replicate_succ, List.cons_append,
        runLoop_timeout_step mp st reqs' _ hg, ih]
      congr 1
      simp [List.replicate_succ]
  exact key _ reqs

/-- Witness for C5: six timeouts from the initial state are transparent. -/
theorem c5_timeouts_never_count_witness :
    maxPagesBreak Option.none 1 = false ∧
    ((runLoop Option.none initState [] (.timeout :: [.decodeError]) =
        runLoop Option.none initState ([] ++ [initState.page]) [.decodeError]) ∧
     (runLoop Option.none initState [] (.connError :: [.decodeError]) =
        runLoop Option.none initState ([] ++ [initState.page]) [.decodeError]) ∧
     (runLoop Option.none initState []
         (List.replicate (max_consecutive_empty * 2) .timeout ++ [.decodeError]) =
        runLoop Option.none initState
          ([] ++ List.replicate (max_consecutive_empty * 2) initState.page)
          [.decodeError])) :=
  ⟨rfl, c5_timeouts_never_count Option.none initState [] [.decodeError] rfl⟩

/-- C6: when the first request's structurally successful response reports a
total count of exactly 0, the run returns 0 immediately with the accumulated
record list still empty and exactly one request issued, whatever the items
list carried and whatever outcomes the script still held. -/
theorem c6_first_page_zero_total (mp : Option Int) (items : List PyVal)
    (rest : List PageOutcome) (hg : maxPagesBreak mp 1 = false) :
    fetch_comments mp (.success (mkSuccessBody items (.int 0)) :: rest) =
      .done 0 { initState with total_count_from_api := .int 0 } [1] := by
  have hg' : maxPagesBreak mp initState.page = false := hg
  rw [fetch_comments, runLoop_success_step mp initState [] rest items (.int 0) hg',
    if_pos ⟨rfl, rfl⟩]
  rfl

/-- Witness for C6: a zero total on the first page stops the run before the
remaining script element, even though the page carried an item. -/
theorem c6_first_page_zero_total_witness :
    maxPagesBreak Option.none 1 = false ∧
    fetch_comments Option.none
        (.success (mkSuccessBody [.dict []] (.int 0)) :: [.timeout]) =
      .done 0 { initState with total_count_from_api := .int 0 } [1] :=
  ⟨rfl, c6_first_page_zero_total Option.none [.dict []] [.timeout] rfl⟩

/-- C7: a structurally successful page with an empty items list, reached
past page 1 with records already accumulated, ends the run through the
normal-completion break: the accumulated records and every other state
component are returned unchanged (only the reported total is re-captured)
and no element of the remaining script is consumed. -/
theorem c7_empty_page_preserves (mp : Option Int) (st : SpiderState)
    (reqs : List Nat) (rest : List PageOutcome) (tc : PyVal)
    (hg : maxPagesBreak mp st.page = false) (hpage : st.page ≠ 1)
    (_hprior : st.comments_data ≠ []) :
    runLoop mp st reqs (.success (mkSuccessBody [] tc) :: rest) =
      .done st.total_count { st with total_count_from_api := tc }
        (reqs ++ [st.page]) := by
  rw [runLoop_success_step mp st reqs rest [] tc hg,
    if_neg (fun h => hpage h.1),
    if_pos (show truthy (PyVal.list []) = false from rfl)]

/-- Witness for C7 at a page-2 state holding one record. -/
theorem c7_empty_page_preserves_witness :
    maxPagesBreak Option.none 2 = false ∧ (2 : Nat) ≠ 1 ∧
    ([defaultRecord] : List (List (String × PyVal))) ≠ [] ∧
    runLoop Option.none
        { page := 2, total_count := 1, consecutive_empty := 0,
          comments_data := [defaultRecord], total_count_from_api := .int 5 }
        [1] [.success (mkSuccessBody [] (.int 5)), .timeout] =
      .done 1
        { page := 2, total_count := 1, consecutive_empty := 0,
          comments_data := [defaultRecord], total_count_from_api := .int 5 }
        [1, 2] := by
  refine ⟨rfl, by decide, by simp, ?_⟩
  have h := c7_empty_page_preserves Option.none
    { page := 2, total_count := 1, consecutive_empty := 0,
      comments_data := [defaultRecord], total_count_from_api := .int 5 }
    [1] [.timeout] (.int 5) rfl (by decide) (by simp)
  simpa using h

/-- C8: a JSON-decode failure on an HTTP-successful response ends the run at
once: the state — records, counters, page index, captured total — is
returned exactly as it was, no retry of the page happens and no further
script element is consumed. -/
theorem c8_decode_error_stops (mp : Option Int) (st : SpiderState)
    (reqs : List Nat) (rest : List PageOutcome)
    (hg : maxPagesBreak mp st.page = false) :
    runLoop mp st reqs (.decodeError :: rest) =
      .done st.total_count st (reqs ++ [st.page]) :=
  runLoop_decodeError_step mp st reqs rest hg

/-- Witness for C8 at a mid-run state with two records and a nonzero
failure counter. -/
theorem c8_decode_error_stops_witness :
    maxPagesBreak Option.none 3 = false ∧
    runLoop Option.none
        { page := 3, total_count := 2, consecutive_empty := 1,
          comments_data := [defaultRecord, defaultRecord],
          total_count_from_api := .int 9 }
        [1, 2] [.decodeError, .timeout] =
      .done 2
        { page := 3, total_count := 2, consecutive_empty := 1,
          comments_data := [defaultRecord, defaultRecord],
          total_count_from_api := .int 9 }
        [1, 2, 3] := by
  refine ⟨rfl, ?_⟩
  have h := c8_decode_error_stops Option.none
    { page := 3, total_count := 2, consecutive_empty := 1,
      comments_data := [defaultRecord, defaultRecord],
      total_count_from_api := .int 9 }
    [1, 2] [.timeout] rfl
  simpa using h

/-- C9: a maximum-page-count of 0 is falsy to the loop guard, so the whole
run behaves identically to the unbounded (None) configuration, and in
particular a run with at least one scripted outcome still issues its first
page request instead of stopping before any request. -/
theorem c9_max_pages_zero_unbounded (o : PageOutcome) (rest : List PageOutcome) :
    (∀ (st : SpiderState) (reqs : List Nat) (outs : List PageOutcome),
      runLoop (some 0) st reqs outs = runLoop Option.none st reqs outs) ∧
    (fetch_comments (some 0) (o :: rest)).pages ≠ [] := by
  refine ⟨fun st reqs outs => runLoop_some_zero outs st reqs, ?_⟩
  obtain ⟨t, ht⟩ :=
    runLoop_cons_pages (some 0) initState [] o rest (maxPagesBreak_some_zero _)
  rw [fetch_comments, ht]
  simp

/-- C10: every record the item parser emits carries exactly the eleven keys
in the fixed insertion order of `_parse_comment`, whatever source keys were
absent; consequently, for any nonempty list of parser-emitted records the
persisted CSV selects all eleven configured columns. -/
theorem c10_eleven_fields :
    (∀ item c, _parse_comment item = some c → c.map Prod.fst = commentKeys) ∧
    (∀ records : List (List (String × PyVal)), records ≠ [] →
      (∀ r ∈ records, ∃ item, _parse_comment item = some r) →
      save_to_csv_columns records = some columns_order) := by
  constructor
  · exact parse_comment_keys
  · intro records hne hall
    have hkeys : ∀ r ∈ records, r.map Prod.fst = commentKeys := by
      intro r hr
      obtain ⟨item, hi⟩ := hall r hr
      exact parse_comment_keys item r hi
    have hdf := dfColumns_of_records records hne hkeys
    rw [save_to_csv_columns, if_neg (by simpa using hne), hdf,
      filter_commentKeys_columns]

/-- Witness for C10 on the singleton list holding the fully defaulted
record. -/
theorem c10_eleven_fields_witness :
    defaultRecord.map Prod.fst = commentKeys ∧
    save_to_csv_columns [defaultRecord] = some columns_order := by
  refine ⟨c10_eleven_fields.1 (.dict []) defaultRecord rfl, ?_⟩
  refine c10_eleven_fields.2 [defaultRecord] (by simp) ?_
  intro r hr
  rw [List.mem_singleton.mp hr]
  exact ⟨.dict [], rfl⟩
